import Mathlib

set_option maxHeartbeats 1000000

namespace RelaySpec

/-- A Python float as json.loads produces one for a non-integer number
token: a finite decimal kept exactly as mantissa times ten to a power
(rather than rounded to binary), or one of the non-finite constants NaN,
Infinity and -Infinity that the Python decoder accepts by default. -/
inductive PyFloat where
  | finite (m : Int) (e10 : Int)
  | nan
  | inf (neg : Bool)
deriving Repr

/-- JSON values, the model of the Python objects produced by `json.loads`.
Integer tokens become Python ints (`num`), tokens with a fraction or
exponent and the non-finite constants become Python floats (`fl`).
Objects are ordered field lists (Python dicts preserve insertion order). -/
inductive Json where
  | null
  | bool (b : Bool)
  | num (n : Int)
  | fl (x : PyFloat)
  | str (s : String)
  | arr (elems : List Json)
  | obj (fields : List (String × Json))
deriving Repr

/-- Opening brace character, written by code point to keep sources plain. -/
def obrace : Char := Char.ofNat 123

/-- Closing brace character. -/
def cbrace : Char := Char.ofNat 125

/-- JSON whitespace characters, as skipped by the Python json module. -/
def jsonWs (c : Char) : Bool := c = ' ' || c = '\t' || c = '\n' || c = '\r'

/-- Drop leading JSON whitespace from a character list. -/
def skipWs : List Char → List Char
  | [] => []
  | c :: cs => if jsonWs c then skipWs cs else c :: cs

/-- Resolve one single-letter string escape sequence of a JSON text, as
accepted by the Python json module (the numeric \u form is handled by the
string parser itself). -/
def escChar (c : Char) : Option Char :=
  if c = '"' ∨ c = '\\' ∨ c = '/' then some c
  else if c = 'n' then some '\n'
  else if c = 't' then some '\t'
  else if c = 'r' then some '\r'
  else if c = 'b' then some (Char.ofNat 8)
  else if c = 'f' then some (Char.ofNat 12)
  else none

/-- Numeric value of one hexadecimal digit. -/
def hexDigit (c : Char) : Option Nat :=
  if c.isDigit then some (c.toNat - 48)
  else if 97 ≤ c.toNat ∧ c.toNat ≤ 102 then some (c.toNat - 87)
  else if 65 ≤ c.toNat ∧ c.toNat ≤ 70 then some (c.toNat - 55)
  else none

/-- Numeric value of a four-hex-digit escape body. -/
def hexNum (a b c d : Char) : Option Nat :=
  match hexDigit a, hexDigit b, hexDigit c, hexDigit d with
  | some w, some x, some y, some z => some (((w * 16 + x) * 16 + y) * 16 + z)
  | _, _, _, _ => none

/-- Parse the body of a JSON string literal after its opening quote, returning
the decoded characters and the remaining input. The numeric \u escape is
decoded, and a high-low surrogate escape pair is combined into one code
point, both as Python does. A lone surrogate escape is a parse failure here:
CPython admits it into its strings, but a Lean Char can hold only scalar
values, so such payloads are outside the representable fragment. -/
def parseStr : List Char → Option (List Char × List Char)
  | [] => none
  | '"' :: rest => some ([], rest)
  | '\\' :: 'u' :: a :: b :: c :: d :: rest =>
    match hexNum a b c d with
    | none => none
    | some code =>
      if 55296 ≤ code ∧ code ≤ 56319 then
        match rest with
        | '\\' :: 'u' :: e :: f :: g :: h :: rest2 =>
          match hexNum e f g h with
          | none => none
          | some lo =>
            if 56320 ≤ lo ∧ lo ≤ 57343 then
              match parseStr rest2 with
              | none => none
              | some (s, r) =>
                some (Char.ofNat (65536 + (code - 55296) * 1024 + (lo - 56320)) :: s, r)
            else none
        | _ => none
      else if 56320 ≤ code ∧ code ≤ 57343 then none
      else
        match parseStr rest with
        | none => none
        | some (s, r) => some (Char.ofNat code :: s, r)
  | '\\' :: c :: rest =>
    match escChar c with
    | none => none
    | some e =>
      match parseStr rest with
      | none => none
      | some (s, r) => some (e :: s, r)
  | c :: rest =>
    match parseStr rest with
    | none => none
    | some (s, r) => some (c :: s, r)

/-- Digit characters folded into a natural number. -/
def digitsToNat (ds : List Char) : Nat :=
  ds.foldl (fun n c => n * 10 + (c.toNat - 48)) 0

/-- The integer part of a number token per the json grammar: a single zero,
or a nonzero digit followed by digits — a leading zero ends the token, as
the Python decoder's number regex does. -/
def intDigits : List Char → Option (List Char × List Char)
  | '0' :: rest => some (['0'], rest)
  | c :: rest =>
    if c.isDigit then some (c :: rest.takeWhile Char.isDigit, rest.dropWhile Char.isDigit)
    else none
  | [] => none

/-- The optional fraction part: a dot not followed by a digit is not part of
the number token (the regex group simply does not match), so the input is
left untouched in that case. -/
def parseFrac (cs : List Char) : List Char × List Char :=
  match cs with
  | '.' :: r =>
    let ds := r.takeWhile Char.isDigit
    if ds.isEmpty then ([], cs) else (ds, r.dropWhile Char.isDigit)
  | _ => ([], cs)

/-- The optional exponent part: an e or E with an optional sign and at least
one digit; anything less is not part of the number token and the input is
left untouched. -/
def parseExpPart (cs : List Char) : Option Int × List Char :=
  match cs with
  | c :: rest =>
    if c = 'e' ∨ c = 'E' then
      match rest with
      | '+' :: r =>
        let ds := r.takeWhile Char.isDigit
        if ds.isEmpty then (none, cs)
        else (some (digitsToNat ds : Int), r.dropWhile Char.isDigit)
      | '-' :: r =>
        let ds := r.takeWhile Char.isDigit
        if ds.isEmpty then (none, cs)
        else (some (-(digitsToNat ds : Int)), r.dropWhile Char.isDigit)
      | r =>
        let ds := r.takeWhile Char.isDigit
        if ds.isEmpty then (none, cs)
        else (some (digitsToNat ds : Int), r.dropWhile Char.isDigit)
    else (none, cs)
  | [] => (none, [])

/-- An unsigned number token: an integer when there is neither fraction nor
exponent, a float (exact decimal mantissa and power of ten) otherwise, as
Python json distinguishes them. -/
def parseNumCore (cs : List Char) : Option (Json × List Char) :=
  match intDigits cs with
  | none => none
  | some (ip, r1) =>
    match parseFrac r1 with
    | (fd, r2) =>
      match parseExpPart r2 with
      | (eo, r3) =>
        if fd.isEmpty ∧ eo.isNone then
          some (Json.num (digitsToNat ip : Int), r3)
        else
          some (Json.fl (PyFloat.finite (digitsToNat (ip ++ fd) : Int)
            (eo.getD 0 - (fd.length : Int))), r3)

/-- Parse a JSON number token, including the signed form and the -Infinity
constant the Python decoder special-cases next to it. -/
def parseNum (cs : List Char) : Option (Json × List Char) :=
  match cs with
  | '-' :: 'I' :: 'n' :: 'f' :: 'i' :: 'n' :: 'i' :: 't' :: 'y' :: rest =>
    some (Json.fl (PyFloat.inf true), rest)
  | '-' :: rest =>
    match parseNumCore rest with
    | some (Json.num n, r) => some (Json.num (-n), r)
    | some (Json.fl (PyFloat.finite m e), r) => some (Json.fl (PyFloat.finite (-m) e), r)
    | _ => none
  | _ => parseNumCore cs

/-- Parsing mode: a single value, the element list of an array after the
opening bracket, or the field list of an object after the opening brace. -/
inductive PMode where
  | val
  | arrElems
  | objFields

/-- Intermediate parse results for the three modes. -/
inductive POut where
  | v (j : Json)
  | elems (l : List Json)
  | fields (l : List (String × Json))

/-- Fuel-indexed recursive descent over the JSON grammar, modelling the
Python json module on the fragment this repository exchanges: null, booleans,
integers, strings, arrays and objects. -/
def parseF : Nat → PMode → List Char → Option (POut × List Char)
  | 0, _, _ => none
  | Nat.succ fuel, PMode.val, cs =>
    match skipWs cs with
    | 'n' :: 'u' :: 'l' :: 'l' :: rest => some (POut.v Json.null, rest)
    | 't' :: 'r' :: 'u' :: 'e' :: rest => some (POut.v (Json.bool true), rest)
    | 'f' :: 'a' :: 'l' :: 's' :: 'e' :: rest => some (POut.v (Json.bool false), rest)
    | 'N' :: 'a' :: 'N' :: rest => some (POut.v (Json.fl PyFloat.nan), rest)
    | 'I' :: 'n' :: 'f' :: 'i' :: 'n' :: 'i' :: 't' :: 'y' :: rest =>
      some (POut.v (Json.fl (PyFloat.inf false)), rest)
    | '"' :: rest =>
      match parseStr rest with
      | none => none
      | some (s, r) => some (POut.v (Json.str (String.mk s)), r)
    | '[' :: rest =>
      match skipWs rest with
      | ']' :: r => some (POut.v (Json.arr []), r)
      | _ =>
        match parseF fuel PMode.arrElems rest with
        | some (POut.elems l, r) => some (POut.v (Json.arr l), r)
        | _ => none
    | c :: rest =>
      if c = obrace then
        match skipWs rest with
        | d :: r =>
          if d = cbrace then some (POut.v (Json.obj []), r)
          else
            match parseF fuel PMode.objFields rest with
            | some (POut.fields l, r2) => some (POut.v (Json.obj l), r2)
            | _ => none
        | [] => none
      else
        match parseNum (c :: rest) with
        | none => none
        | some (j, r) => some (POut.v j, r)
    | [] => none
  | Nat.succ fuel, PMode.arrElems, cs =>
    match parseF fuel PMode.val cs with
    | some (POut.v j, rest) =>
      match skipWs rest with
      | ',' :: r =>
        match parseF fuel PMode.arrElems r with
        | some (POut.elems l, r2) => some (POut.elems (j :: l), r2)
        | _ => none
      | ']' :: r => some (POut.elems [j], r)
      | _ => none
    | _ => none
  | Nat.succ fuel, PMode.objFields, cs =>
    match skipWs cs with
    | '"' :: rest =>
      match parseStr rest with
      | none => none
      | some (key, r1) =>
        match skipWs r1 with
        | ':' :: r2 =>
          match parseF fuel PMode.val r2 with
          | some (POut.v j, r3) =>
            match skipWs r3 with
            | ',' :: r4 =>
              match parseF fuel PMode.objFields r4 with
              | some (POut.fields l, r5) => some (POut.fields ((String.mk key, j) :: l), r5)
              | _ => none
            | d :: r4 =>
              if d = cbrace then some (POut.fields [(String.mk key, j)], r4)
              else none
            | [] => none
          | _ => none
        | _ => none
    | _ => none

/-- Model of json.loads: parse a complete JSON document, rejecting trailing
content, and return none where the Python call would raise JSONDecodeError. -/
def loads (s : String) : Option Json :=
  match parseF (s.length + 2) PMode.val s.data with
  | some (POut.v j, rest) => if (skipWs rest).isEmpty then some j else none
  | _ => none

/-- Escape one character of a string being serialized, as json.dumps does on
the ASCII fragment this repository exchanges. -/
def escOut (c : Char) : List Char :=
  if c = '"' then ['\\', '"']
  else if c = '\\' then ['\\', '\\']
  else if c = '\n' then ['\\', 'n']
  else if c = '\t' then ['\\', 't']
  else if c = '\r' then ['\\', 'r']
  else [c]

/-- Serialize a string with surrounding quotes, as json.dumps does. -/
def dumpStr (s : String) : String :=
  String.mk ('"' :: s.data.flatMap escOut ++ ['"'])

mutual

/-- Model of json.dumps on the fragment this repository produces, with the
default separators (a comma-space between items, a colon-space after keys).
The rendering of a finite float (Python uses repr of the binary value) is
not modelled precisely; no relayed payload in the claims serializes one. -/
def dumps : Json → String
  | Json.null => "null"
  | Json.bool true => "true"
  | Json.bool false => "false"
  | Json.num n => toString n
  | Json.fl (PyFloat.finite m e) => toString m ++ "e" ++ toString e
  | Json.fl PyFloat.nan => "NaN"
  | Json.fl (PyFloat.inf true) => "-Infinity"
  | Json.fl (PyFloat.inf false) => "Infinity"
  | Json.str s => dumpStr s
  | Json.arr xs => "[" ++ dumpsList xs ++ "]"
  | Json.obj fs => String.mk [obrace] ++ dumpsFields fs ++ String.mk [cbrace]

/-- Serialize array elements, comma-space separated. -/
def dumpsList : List Json → String
  | [] => ""
  | [x] => dumps x
  | x :: y :: xs => dumps x ++ ", " ++ dumpsList (y :: xs)

/-- Serialize object fields, comma-space separated, colon-space after keys. -/
def dumpsFields : List (String × Json) → String
  | [] => ""
  | [(k, v)] => dumpStr k ++ ": " ++ dumps v
  | (k, v) :: kv :: xs => dumpStr k ++ ": " ++ dumps v ++ ", " ++ dumpsFields (kv :: xs)

end

/-- Whitespace stripped by the Python str.strip method. -/
def pyWsChar (c : Char) : Bool :=
  c = ' ' || c = '\t' || c = '\n' || c = '\r' || c = Char.ofNat 11 || c = Char.ofNat 12

/-- Model of the Python str.strip method: drop leading and trailing whitespace. -/
def pyStrip (s : String) : String :=
  String.mk (((s.data.dropWhile pyWsChar).reverse.dropWhile pyWsChar).reverse)

/-- Split a character list at every newline; like the Python str.split
method with an explicit separator, it keeps empty pieces. -/
def splitNl : List Char → List (List Char)
  | [] => [[]]
  | c :: rest =>
    if c = '\n' then [] :: splitNl rest
    else
      match splitNl rest with
      | [] => [[c]]
      | h :: t => (c :: h) :: t

/-- Model of the Python split on a newline separator. -/
def pySplitNl (s : String) : List String :=
  (splitNl s.data).map String.mk

/-- Model of the Python str.startswith method. -/
def pyStartsWith (s pre : String) : Bool :=
  pre.data.isPrefixOf s.data

/-- Model of the Python slice s[n:] (by code points, as Python slices). -/
def pyDropStr (s : String) (n : Nat) : String :=
  String.mk (s.data.drop n)

/-- Substring test over character lists, behind the Python in operator on
strings. -/
def hasSub : List Char → List Char → Bool
  | [], pat => pat.isEmpty
  | l :: rest, pat => pat.isPrefixOf (l :: rest) || hasSub rest pat

/-- First-match association lookup; Python dict indexing on the ordered
field list of a parsed JSON object (keys are unique after json.loads). -/
def lookupField : List (String × Json) → String → Option Json
  | [], _ => none
  | kv :: rest, k => if kv.1 = k then some kv.2 else lookupField rest k

/-- Replace the value at a key in place, used when the key is present. -/
def setAll (fs : List (String × Json)) (k : String) (v : Json) : List (String × Json) :=
  fs.map (fun kv => if kv.1 = k then (k, v) else kv)

/-- Model of Python dict item assignment: update an existing key in place,
otherwise append the new pair at the end (insertion order is preserved). -/
def pySetItem (fs : List (String × Json)) (k : String) (v : Json) : List (String × Json) :=
  if fs.any (fun kv => kv.1 = k) then setAll fs k v else fs ++ [(k, v)]

/-- Model of the Python dict.get method with a default. -/
def pyGetD (fs : List (String × Json)) (k : String) (d : Json) : Json :=
  (lookupField fs k).getD d

/-- Python truthiness of a parsed JSON value (NaN and the infinities are
truthy, a zero float is not). -/
def pyTruthy : Json → Bool
  | Json.null => false
  | Json.bool b => b
  | Json.num n => n ≠ 0
  | Json.fl (PyFloat.finite m _) => m ≠ 0
  | Json.fl _ => true
  | Json.str s => s ≠ ""
  | Json.arr xs => ¬ xs.isEmpty
  | Json.obj fs => ¬ fs.isEmpty

/-- The Python exceptions this code can raise while inspecting a parsed
payload: KeyError is in the streaming except tuple, TypeError is not. -/
inductive PyExc where
  | keyError
  | typeError
deriving DecidableEq

/-- Model of the Python in operator applied to a parsed JSON value: key
membership on dicts, substring test on strings, element membership on lists,
and a TypeError on values that support no membership test. -/
def pyContains (j : Json) (k : String) : Except PyExc Bool :=
  match j with
  | Json.obj fs => Except.ok (lookupField fs k).isSome
  | Json.str s => Except.ok (hasSub s.data k.data)
  | Json.arr xs => Except.ok (xs.any (fun e => match e with | Json.str t => t = k | _ => false))
  | _ => Except.error PyExc.typeError

/-- Model of Python indexing with a string key: dict lookup (KeyError when
absent), TypeError on every other value. -/
def pyGetItem (j : Json) (k : String) : Except PyExc Json :=
  match j with
  | Json.obj fs =>
    match lookupField fs k with
    | some v => Except.ok v
    | none => Except.error PyExc.keyError
  | _ => Except.error PyExc.typeError

/-- Model of the Python len builtin on a parsed JSON value. -/
def pyLen : Json → Except PyExc Nat
  | Json.str s => Except.ok s.length
  | Json.arr xs => Except.ok xs.length
  | Json.obj fs => Except.ok fs.length
  | _ => Except.error PyExc.typeError

/-- Model of Python iteration over a parsed JSON value: list elements,
string characters (as one-character strings), dict keys; TypeError otherwise. -/
def pyIterItems : Json → Except PyExc (List Json)
  | Json.arr xs => Except.ok xs
  | Json.str s => Except.ok (s.data.map (fun c => Json.str (String.mk [c])))
  | Json.obj fs => Except.ok (fs.map (fun kv => Json.str kv.1))
  | _ => Except.error PyExc.typeError

/-- The text field of one choice, as read by the code: defined exactly for
JSON objects carrying the key. -/
def textOf : Json → Option Json
  | Json.obj fs => lookupField fs "text"
  | _ => none

/-- The list comprehension over choices: index each choice with the text key,
left to right; a choice without the key raises KeyError, a choice that is not
an object raises TypeError, and the first exception wins. -/
def extractTexts : List Json → Except PyExc (List Json)
  | [] => Except.ok []
  | Json.obj fs :: rest =>
    match lookupField fs "text" with
    | some v =>
      match extractTexts rest with
      | Except.ok vs => Except.ok (v :: vs)
      | Except.error e => Except.error e
    | none => Except.error PyExc.keyError
  | _ :: _ => Except.error PyExc.typeError

/-- The guard in both response paths on a parsed payload: membership of the
choices key and then a length test on the indexed value, with the exceptions
either operation can raise. -/
def pyChoicesNonempty (data : Json) : Except PyExc Bool :=
  match pyContains data "choices" with
  | Except.error e => Except.error e
  | Except.ok false => Except.ok false
  | Except.ok true =>
    match pyGetItem data "choices" with
    | Except.error e => Except.error e
    | Except.ok v =>
      match pyLen v with
      | Except.error e => Except.error e
      | Except.ok n => Except.ok (decide (0 < n))

/-- The comprehension input: the payload indexed again at the choices key
(the code evaluates the index expression a second time) and then iterated. -/
def pyExtractTexts (data : Json) : Except PyExc (List Json) :=
  match pyGetItem data "choices" with
  | Except.error e => Except.error e
  | Except.ok v =>
    match pyIterItems v with
    | Except.error e => Except.error e
    | Except.ok items => extractTexts items

/-- The null byte appended after each serialized relay chunk. -/
def nullByte : String := "\x00"

/-- A serialized relay chunk: the JSON text followed by the null delimiter. -/
def mkChunk (j : Json) : String := dumps j ++ nullByte

/-- Outcome of one line of an upstream chunk inside the streaming loop:
a yielded relay chunk, no output, an exception caught by the except tuple
(JSONDecodeError, UnicodeDecodeError, KeyError), or an uncaught exception. -/
inductive LineStep where
  | yield (out : String)
  | skip
  | caught
  | crash
deriving DecidableEq

/-- One line of the streaming loop body: lines beginning with the event-data
marker, other than terminal-marker lines, are stripped of the marker, parsed,
and, when the payload has a non-empty choices list, converted into one relay
chunk. A JSON parse failure or a KeyError is caught by the surrounding except
tuple; a TypeError is not and escapes the generator. -/
def processLine (line : String) : LineStep :=
  if pyStartsWith line "data: " && !(pyStartsWith line "data: [DONE]") then
    match loads (pyDropStr line 6) with
    | none => LineStep.caught
    | some data =>
      match pyChoicesNonempty data with
      | Except.error PyExc.keyError => LineStep.caught
      | Except.error PyExc.typeError => LineStep.crash
      | Except.ok false => LineStep.skip
      | Except.ok true =>
        match pyExtractTexts data with
        | Except.error PyExc.keyError => LineStep.caught
        | Except.error PyExc.typeError => LineStep.crash
        | Except.ok texts =>
          LineStep.yield (mkChunk (Json.obj [("text", Json.arr texts)]))
  else LineStep.skip

/-- The relay chunk a lone line contributes, if any. -/
def lineOut (l : String) : Option String :=
  match processLine l with
  | LineStep.yield o => some o
  | _ => none

/-- The line list the loop derives from one upstream chunk: empty chunks are
skipped by the truthiness guard; other chunks are decoded, stripped and split
on newlines. -/
def chunkLines (c : String) : List String :=
  if c = "" then [] else pySplitNl (pyStrip c)

/-- Run the inner line loop of one chunk: outputs in order, and true unless
an uncaught exception ends the generator. A caught exception abandons the
remaining lines of this chunk but leaves the outer loop running. -/
def processLines : List String → List String × Bool
  | [] => ([], true)
  | l :: ls =>
    match processLine l with
    | LineStep.yield out =>
      match processLines ls with
      | (rest, flag) => (out :: rest, flag)
    | LineStep.skip => processLines ls
    | LineStep.caught => ([], true)
    | LineStep.crash => ([], false)

/-- Process one upstream chunk. -/
def processChunk (c : String) : List String × Bool :=
  processLines (chunkLines c)

/-- The translation loop over the upstream chunk sequence. The boolean is
true when the loop consumed every chunk, i.e. the relay stream ended because
the upstream stream did; false when an uncaught exception aborted it early. -/
def relayStream : List String → List String × Bool
  | [] => ([], true)
  | c :: cs =>
    match processChunk c with
    | (outs, true) =>
      match relayStream cs with
      | (rest, flag) => (outs ++ rest, flag)
    | (outs, false) => (outs, false)

/-- What the upstream call yields, as far as the relay observes it: a
network-level connection failure (aiohttp.ClientError), or a response with a
status code, a full body text, and the same body as iter_chunked delivers it. -/
inductive Upstream where
  | connFail (msg : String)
  | reply (status : Nat) (body : String) (chunks : List String)

/-- The async generator of the streaming branch, as it executes when the
response body is iterated. Its first step is session.post on the handler's
ClientSession; sessionLive records whether that session is still open at
that moment. The handler's return statement exits the async-with that owns
the session before the body ever runs, so the call site always passes false:
the post raises RuntimeError before any upstream request is made, nothing in
the generator catches it, and the stream aborts with zero output. Everything
below the post in the source — the status check, the single error chunk, the
line-translation loop — is the sessionLive branch here, and is unreachable
in the program. On a live session, a connection failure raised by the post
is likewise caught by nothing in the generator. -/
def stream_vllm_results (sessionLive : Bool) (u : Upstream) : List String × Bool :=
  if sessionLive then
    match u with
    | Upstream.connFail _ => ([], false)
    | Upstream.reply status body chunks =>
      if status ≠ 200 then
        ([mkChunk (Json.obj [("error", Json.str ("vLLM server error: " ++ body))])], true)
      else relayStream chunks
  else ([], false)

/-- An HTTP response of the relay: a status code and a body text. -/
structure RelayResponse where
  status : Nat
  body : String
deriving DecidableEq

/-- The JSON body of the catch-all failure path. The code interpolates
str(e) after the fixed text; the exception detail text is not modelled. -/
def unexpectedBody : String :=
  dumps (Json.obj [("error", Json.str "Unexpected error")])

/-- The non-streaming branch of the generate handler: forward the request,
relay a non-success upstream status with its body in the error string,
otherwise parse the body and reshape a non-empty choices list into the text
list; a missing or empty choices list yields the invalid-response error, and
any exception on this path reaches the catch-all except clause (status 500). -/
def completionsNonStream (u : Upstream) : RelayResponse :=
  match u with
  | Upstream.connFail msg =>
    ⟨503, dumps (Json.obj [("error", Json.str ("Failed to connect to vLLM server: " ++ msg))])⟩
  | Upstream.reply status body _ =>
    if status ≠ 200 then
      ⟨status, dumps (Json.obj [("error", Json.str ("vLLM server error: " ++ body))])⟩
    else
      match loads body with
      | none => ⟨500, unexpectedBody⟩
      | some data =>
        match pyChoicesNonempty data with
        | Except.error _ => ⟨500, unexpectedBody⟩
        | Except.ok false =>
          ⟨500, dumps (Json.obj [("error", Json.str "Invalid response from vLLM server")])⟩
        | Except.ok true =>
          match pyExtractTexts data with
          | Except.error _ => ⟨500, unexpectedBody⟩
          | Except.ok texts => ⟨200, dumps (Json.obj [("text", Json.arr texts)])⟩

/-- What the generate handler returns: a JSON response, or a streaming
response whose status line is already sent when the body runs (the
StreamingResponse default status is 200). The streaming payload records the
emitted chunks and whether the generator finished without raising. -/
inductive RelayResult where
  | json (status : Nat) (body : String)
  | streaming (status : Nat) (outs : List String) (completed : Bool)
deriving DecidableEq

/-- The body forwarded upstream: the client body with the configured model
identifier written into the model key and every other key untouched. -/
def forwardedBody (modelName : String) (req : List (String × Json)) : List (String × Json) :=
  pySetItem req "model" (Json.str modelName)

/-- The streaming flag, read with dict.get from the forwarded body after the
model injection, defaulting to false, then tested for truthiness. -/
def streamFlagOf (modelName : String) (req : List (String × Json)) : Bool :=
  pyTruthy (pyGetD (forwardedBody modelName req) "stream" (Json.bool false))

/-- The generate handler for a JSON-object request body. The configured
upstream URL is a module-level string constant overridden by a parsed
argument, so it is never None and the unconfigured guard is dead; it is not
modelled. When the flag selects streaming, the handler returns the
StreamingResponse immediately — before any upstream connection is attempted —
so its status is 200 whatever the upstream does later; and that return exits
the async-with holding the ClientSession, so when the response body runs the
session is already closed: the generator is entered with sessionLive false
and the stream always aborts with zero output. -/
def completions (modelName : String) (req : List (String × Json)) (u : Upstream) : RelayResult :=
  if streamFlagOf modelName req then
    match stream_vllm_results false u with
    | (outs, completed) => RelayResult.streaming 200 outs completed
  else
    match completionsNonStream u with
    | ⟨status, body⟩ => RelayResult.json status body

/-- The health endpoint: a bare 200 response with no body; the handler reads
no state and takes no arguments. -/
def health : RelayResponse := ⟨200, ""⟩

/-- A line that raises nothing the streaming loop reacts to: it either yields
one chunk or is passed over. -/
def lineClean (l : String) : Prop :=
  processLine l ≠ LineStep.caught ∧ processLine l ≠ LineStep.crash

instance (l : String) : Decidable (lineClean l) := by
  unfold lineClean; infer_instance

lemma loads_sanity_choices :
    loads "\x7b\"choices\": [\x7b\"text\": \"ok\"\x7d]\x7d" =
      some (Json.obj [("choices", Json.arr [Json.obj [("text", Json.str "ok")]])]) := rfl

lemma loads_sanity_malformed : loads "notjson" = none := rfl

lemma loads_sanity_float : loads "1.5" = some (Json.fl (PyFloat.finite 15 (-1))) := rfl

lemma loads_sanity_nonfinite :
    loads "NaN" = some (Json.fl PyFloat.nan)
    ∧ loads "-Infinity" = some (Json.fl (PyFloat.inf true)) := ⟨rfl, rfl⟩

lemma loads_sanity_uescape : loads "\"\\u0041\"" = some (Json.str "A") := rfl

lemma loads_sanity_leading_zero : loads "05" = none := rfl

lemma processLine_sanity_float : processLine "data: 1.5" = LineStep.crash := rfl

lemma processLine_sanity_uescape : processLine "data: \"\\u0041\"" = LineStep.skip := rfl

lemma loads_sanity_truncated : loads "\x7b\"choi" = none := rfl

lemma pySplitNl_sanity : pySplitNl "a\nb" = ["a", "b"] ∧ pySplitNl "a\n" = ["a", ""] :=
  ⟨rfl, rfl⟩

lemma dumps_sanity :
    dumps (Json.obj [("text", Json.arr [Json.str "ok"])]) = "\x7b\"text\": [\"ok\"]\x7d" := by
  simp only [dumps, dumpsList, dumpsFields]
  rfl

lemma processLines_clean (ls : List String) (h : ∀ l ∈ ls, lineClean l) :
    processLines ls = (ls.filterMap lineOut, true) := by
  induction ls with
  | nil => rfl
  | cons l ls ih =>
    have hl := h l (List.mem_cons_self l ls)
    have ht : ∀ x ∈ ls, lineClean x := fun x hx => h x (List.mem_cons_of_mem _ hx)
    cases hstep : processLine l with
    | yield o => simp [processLines, hstep, ih ht, List.filterMap_cons, lineOut]
    | skip => simp [processLines, hstep, ih ht, List.filterMap_cons, lineOut]
    | caught => exact absurd hstep hl.1
    | crash => exact absurd hstep hl.2

lemma processLines_nocrash (ls : List String)
    (h : ∀ l ∈ ls, processLine l ≠ LineStep.crash) :
    (processLines ls).2 = true := by
  induction ls with
  | nil => rfl
  | cons l ls ih =>
    have hl := h l (List.mem_cons_self l ls)
    have ht := ih (fun x hx => h x (List.mem_cons_of_mem _ hx))
    cases hstep : processLine l with
    | yield o =>
      cases hr : processLines ls with
      | mk rest flag =>
        rw [hr] at ht
        simp [processLines, hstep, hr]
        exact ht
    | skip => simpa [processLines, hstep] using ht
    | caught => simp [processLines, hstep]
    | crash => exact absurd hstep hl

lemma processLines_caught_mid (pre : List String) (bad : String) (post : List String)
    (hpre : ∀ l ∈ pre, lineClean l) (hbad : processLine bad = LineStep.caught) :
    processLines (pre ++ bad :: post) = (pre.filterMap lineOut, true) := by
  induction pre with
  | nil => simp [processLines, hbad]
  | cons l pre ih =>
    have hl := hpre l (List.mem_cons_self l pre)
    have ht := ih (fun x hx => hpre x (List.mem_cons_of_mem _ hx))
    cases hstep : processLine l with
    | yield o => simp [processLines, hstep, ht, List.filterMap_cons, lineOut]
    | skip => simp [processLines, hstep, ht, List.filterMap_cons, lineOut]
    | caught => exact absurd hstep hl.1
    | crash => exact absurd hstep hl.2

lemma relayStream_cons_ok (c : String) (cs : List String) (outs : List String)
    (h : processChunk c = (outs, true)) :
    relayStream (c :: cs) = (outs ++ (relayStream cs).1, (relayStream cs).2) := by
  cases hr : relayStream cs with
  | mk rest flag => simp [relayStream, h, hr]

lemma relayStream_clean (cs : List String)
    (h : ∀ c ∈ cs, ∀ l ∈ chunkLines c, lineClean l) :
    relayStream cs = (cs.flatMap (fun c => (chunkLines c).filterMap lineOut), true) := by
  induction cs with
  | nil => rfl
  | cons c cs ih =>
    have hc := processLines_clean (chunkLines c) (h c (List.mem_cons_self c cs))
    have ht := ih (fun x hx => h x (List.mem_cons_of_mem _ hx))
    simp [relayStream, processChunk, hc, ht]

lemma relayStream_nocrash (cs : List String)
    (h : ∀ c ∈ cs, ∀ l ∈ chunkLines c, processLine l ≠ LineStep.crash) :
    (relayStream cs).2 = true := by
  induction cs with
  | nil => rfl
  | cons c cs ih =>
    have hc := processLines_nocrash (chunkLines c) (h c (List.mem_cons_self c cs))
    have ht := ih (fun x hx => h x (List.mem_cons_of_mem _ hx))
    cases hpc : processChunk c with
    | mk outs flag =>
      have : flag = true := by
        have := congrArg Prod.snd hpc
        simpa [processChunk] using this.symm.trans hc
      subst this
      cases hr : relayStream cs with
      | mk rest rflag =>
        rw [hr] at ht
        simpa [relayStream, hpc, hr] using ht

lemma processLine_malformed (l : String)
    (h1 : pyStartsWith l "data: " = true)
    (h2 : pyStartsWith l "data: [DONE]" = false)
    (h3 : loads (pyDropStr l 6) = none) :
    processLine l = LineStep.caught := by
  simp [processLine, h1, h2, h3]

lemma extractTexts_ok_length (cs : List Json) :
    ∀ ts, extractTexts cs = Except.ok ts → ts.length = cs.length := by
  induction cs with
  | nil =>
    intro ts h
    simp [extractTexts] at h
    simp [← h]
  | cons c cs ih =>
    intro ts h
    cases c with
    | null => simp [extractTexts] at h
    | bool b => simp [extractTexts] at h
    | num n => simp [extractTexts] at h
    | fl x => simp [extractTexts] at h
    | str s => simp [extractTexts] at h
    | arr xs => simp [extractTexts] at h
    | obj fs =>
      cases hl : lookupField fs "text" with
      | none => rw [extractTexts, hl] at h; simp at h
      | some v =>
        rw [extractTexts, hl] at h
        cases hr : extractTexts cs with
        | error e => rw [hr] at h; simp at h
        | ok vs =>
          rw [hr] at h
          simp at h
          simp [← h, ih vs hr]

lemma extractTexts_ok_get (cs : List Json) :
    ∀ ts, extractTexts cs = Except.ok ts →
      ∀ i (hc : i < cs.length) (ht : i < ts.length),
        textOf (cs.get ⟨i, hc⟩) = some (ts.get ⟨i, ht⟩) := by
  induction cs with
  | nil => intro ts _ i hc; exact absurd hc (by simp)
  | cons c cs ih =>
    intro ts h i hc ht
    cases c with
    | null => simp [extractTexts] at h
    | bool b => simp [extractTexts] at h
    | num n => simp [extractTexts] at h
    | fl x => simp [extractTexts] at h
    | str s => simp [extractTexts] at h
    | arr xs => simp [extractTexts] at h
    | obj fs =>
      cases hl : lookupField fs "text" with
      | none => rw [extractTexts, hl] at h; simp at h
      | some v =>
        rw [extractTexts, hl] at h
        cases hr : extractTexts cs with
        | error e => rw [hr] at h; simp at h
        | ok vs =>
          rw [hr] at h
          simp at h
          subst h
          cases i with
          | zero => simp [textOf, hl]
          | succ j =>
            have hc2 : j < cs.length := Nat.lt_of_succ_lt_succ hc
            have ht2 : j < vs.length := Nat.lt_of_succ_lt_succ ht
            simpa using ih vs hr j hc2 ht2

lemma lookupField_setAll_same (fs : List (String × Json)) (k : String) (v : Json)
    (h : fs.any (fun kv => kv.1 = k) = true) :
    lookupField (setAll fs k v) k = some v := by
  induction fs with
  | nil => simp at h
  | cons kv fs ih =>
    by_cases hk : kv.1 = k
    · simp [setAll, hk, lookupField]
    · have h2 : fs.any (fun kv => kv.1 = k) = true := by
        simpa [List.any_cons, hk] using h
      simpa [setAll, hk, lookupField] using ih h2

lemma lookupField_setAll_other (k : String) (v : Json) (k2 : String)
    (h : k2 ≠ k) (fs : List (String × Json)) :
    lookupField (setAll fs k v) k2 = lookupField fs k2 := by
  induction fs with
  | nil => rfl
  | cons kv fs ih =>
    show lookupField ((if kv.1 = k then (k, v) else kv) :: setAll fs k v) k2 = _
    by_cases hk : kv.1 = k
    · rw [if_pos hk]
      show (if k = k2 then some v else lookupField (setAll fs k v) k2) = _
      rw [if_neg (fun e => h e.symm), ih]
      show _ = (if kv.1 = k2 then some kv.2 else lookupField fs k2)
      rw [if_neg (fun e => h (e.symm.trans hk))]
    · rw [if_neg hk]
      show (if kv.1 = k2 then some kv.2 else lookupField (setAll fs k v) k2) = _
      by_cases hk2 : kv.1 = k2
      · rw [if_pos hk2]
        show _ = (if kv.1 = k2 then some kv.2 else lookupField fs k2)
        rw [if_pos hk2]
      · rw [if_neg hk2, ih]
        show _ = (if kv.1 = k2 then some kv.2 else lookupField fs k2)
        rw [if_neg hk2]

lemma lookupField_append_self (fs : List (String × Json)) (k : String) (v : Json)
    (h : fs.any (fun kv => kv.1 = k) = false) :
    lookupField (fs ++ [(k, v)]) k = some v := by
  induction fs with
  | nil =>
    show (if k = k then some v else lookupField [] k) = some v
    rw [if_pos rfl]
  | cons kv fs ih =>
    rw [List.any_cons, Bool.or_eq_false_iff] at h
    have hk : ¬ kv.1 = k := of_decide_eq_false h.1
    show (if kv.1 = k then some kv.2 else lookupField (fs ++ [(k, v)]) k) = some v
    rw [if_neg hk, ih h.2]

lemma lookupField_append_other (fs : List (String × Json)) (k : String) (v : Json)
    (k2 : String) (h : k2 ≠ k) :
    lookupField (fs ++ [(k, v)]) k2 = lookupField fs k2 := by
  induction fs with
  | nil =>
    show (if k = k2 then some v else lookupField [] k2) = lookupField [] k2
    rw [if_neg (fun e => h e.symm)]
  | cons kv fs ih =>
    show (if kv.1 = k2 then some kv.2 else lookupField (fs ++ [(k, v)]) k2) = _
    by_cases hk2 : kv.1 = k2
    · rw [if_pos hk2]
      show _ = (if kv.1 = k2 then some kv.2 else lookupField fs k2)
      rw [if_pos hk2]
    · rw [if_neg hk2, ih]
      show _ = (if kv.1 = k2 then some kv.2 else lookupField fs k2)
      rw [if_neg hk2]

lemma forwardedBody_model_value (mn : String) (req : List (String × Json)) :
    lookupField (forwardedBody mn req) "model" = some (Json.str mn) := by
  unfold forwardedBody pySetItem
  cases h : req.any (fun kv => kv.1 = "model") with
  | true =>
    rw [if_pos rfl]
    exact lookupField_setAll_same req "model" (Json.str mn) h
  | false =>
    rw [if_neg Bool.false_ne_true]
    exact lookupField_append_self req "model" (Json.str mn) h

lemma forwardedBody_frame (mn : String) (req : List (String × Json))
    (k : String) (h : k ≠ "model") :
    lookupField (forwardedBody mn req) k = lookupField req k := by
  unfold forwardedBody pySetItem
  cases hany : req.any (fun kv => kv.1 = "model") with
  | true =>
    rw [if_pos rfl]
    exact lookupField_setAll_other "model" (Json.str mn) k h req
  | false =>
    rw [if_neg Bool.false_ne_true]
    exact lookupField_append_other req "model" (Json.str mn) k h

/-- Claim C1, counterexample. The claim says a valid data line arriving
after a malformed line still produces its RelayChunk. No line ever does:
the handler's return exits the async-with owning the ClientSession before
the response body runs, so the generator raises at its first upstream call
and the stream aborts with zero chunks — here, despite a success upstream
whose data holds a malformed line followed by a perfectly valid choices
line, no RelayChunk is produced and the stream ends aborted. -/
theorem C1_counterexample :
    completions "m" [("stream", Json.bool true)]
        (Upstream.reply 200 ""
          ["data: notjson\ndata: \x7b\"choices\": [\x7b\"text\": \"ok\"\x7d]\x7d"]) =
      RelayResult.streaming 200 [] false := rfl

/-- Claim C1 (amended): a malformed JSON line produces zero RelayChunks,
vacuously, and changes nothing: on a success-status stream, the streaming
body aborts with zero chunks before reading any upstream data (the session
it posts on was closed when the handler returned), so the output is empty
and identical whatever lines — malformed or valid — the upstream holds, and
no subsequent valid line produces a RelayChunk. -/
theorem C1_amended_dead_stream (body : String) (chunks chunks2 : List String) :
    stream_vllm_results false (Upstream.reply 200 body chunks) = ([], false)
    ∧ stream_vllm_results false (Upstream.reply 200 body chunks) =
        stream_vllm_results false (Upstream.reply 200 body chunks2) :=
  ⟨rfl, rfl⟩

/-- Claim C2, counterexample. The claim says each valid non-terminal data
line with a non-empty choices list produces exactly one RelayChunk; a
streaming request whose upstream sends exactly one such valid line produces
zero, because the response body dies on the closed session before reading
anything. -/
theorem C2_counterexample :
    completions "m" [("stream", Json.bool true)]
        (Upstream.reply 200 "" ["data: \x7b\"choices\": [\x7b\"text\": \"a\"\x7d]\x7d"]) =
      RelayResult.streaming 200 [] false := rfl

/-- Claim C2 (amended): no streaming request emits any RelayChunk. For every
request whose stream flag is truthy and every upstream behaviour, the relay
returns a 200 streaming response whose body aborts immediately with zero
output: the session the generator posts on was closed when the handler
returned, so the per-line translation loop, its ordering and its
arbitrary-increment reading are dead code. -/
theorem C2_amended_never_emits (mn : String) (req : List (String × Json)) (u : Upstream)
    (h : streamFlagOf mn req = true) :
    completions mn req u = RelayResult.streaming 200 [] false := by
  simp [completions, h, stream_vllm_results]

/-- Witness for C2: a streaming request against an upstream that would send
one valid choices line still yields zero chunks. -/
theorem C2_amended_never_emits_witness :
    completions "m" [("stream", Json.bool true)]
        (Upstream.reply 200 "" ["data: \x7b\"choices\": [\x7b\"text\": \"w\"\x7d]\x7d"]) =
      RelayResult.streaming 200 [] false :=
  C2_amended_never_emits "m" [("stream", Json.bool true)]
    (Upstream.reply 200 "" ["data: \x7b\"choices\": [\x7b\"text\": \"w\"\x7d]\x7d"]) rfl

/-- Claim C3, counterexample. For a streaming request the handler returns
the StreamingResponse — status 200 — before any upstream connection is
attempted; a connection failure then aborts the stream body and is converted
to no 503 response, contradicting the claim for the stream-flag-true case. -/
theorem C3_counterexample :
    completions "m" [("stream", Json.bool true)] (Upstream.connFail "Connection refused") =
      RelayResult.streaming 200 [] false
    ∧ (200 : Nat) ≠ 503 :=
  ⟨rfl, by decide⟩

/-- Claim C3 (amended): when the upstream connection fails, a non-streaming
request gets status 503 with a non-empty error message; a streaming request
has already received a 200 streaming response whose body then aborts with no
output, so no 503 is returned. -/
theorem C3_amended_connfail (mn msg : String) (req : List (String × Json)) :
    (streamFlagOf mn req = false →
      completions mn req (Upstream.connFail msg) =
        RelayResult.json 503 (dumps (Json.obj
          [("error", Json.str ("Failed to connect to vLLM server: " ++ msg))]))
      ∧ ("Failed to connect to vLLM server: " ++ msg) ≠ "")
    ∧ (streamFlagOf mn req = true →
      completions mn req (Upstream.connFail msg) = RelayResult.streaming 200 [] false) := by
  constructor
  · intro h
    refine ⟨by simp [completions, h, completionsNonStream], ?_⟩
    intro e
    have hlen : ("Failed to connect to vLLM server: " ++ msg).length = 0 := by
      rw [e]; rfl
    rw [String.length_append] at hlen
    have : 0 < ("Failed to connect to vLLM server: " : String).length := by decide
    omega
  · intro h
    simp [completions, h, stream_vllm_results]

/-- Witness for C3: a request without the flag gets the 503 JSON error, a
request with the flag true gets the aborted 200 streaming response. -/
theorem C3_amended_connfail_witness :
    completions "m" [] (Upstream.connFail "refused") =
      RelayResult.json 503 (dumps (Json.obj
        [("error", Json.str ("Failed to connect to vLLM server: " ++ "refused"))]))
    ∧ completions "m" [("stream", Json.bool true)] (Upstream.connFail "refused") =
        RelayResult.streaming 200 [] false :=
  ⟨((C3_amended_connfail "m" "refused" []).1 rfl).1,
   (C3_amended_connfail "m" "refused" [("stream", Json.bool true)]).2 rfl⟩

/-- Claim C4: a non-streaming success reply whose parsed body carries a
non-empty choices list of objects with text fields is reshaped into a
success response whose text list has one entry per choice, each equal to the
corresponding choice's text field, in the original order. -/
theorem C4_nonstream_choices (body : String) (chunks : List String)
    (fs : List (String × Json)) (choices texts : List Json)
    (hb : loads body = some (Json.obj fs))
    (hc : lookupField fs "choices" = some (Json.arr choices))
    (hne : choices ≠ [])
    (ht : extractTexts choices = Except.ok texts) :
    completionsNonStream (Upstream.reply 200 body chunks) =
      ⟨200, dumps (Json.obj [("text", Json.arr texts)])⟩
    ∧ texts.length = choices.length
    ∧ ∀ i (hic : i < choices.length) (hit : i < texts.length),
        textOf (choices.get ⟨i, hic⟩) = some (texts.get ⟨i, hit⟩) := by
  refine ⟨?_, extractTexts_ok_length choices texts ht, extractTexts_ok_get choices texts ht⟩
  have hd : decide (0 < choices.length) = true :=
    decide_eq_true (List.length_pos.mpr hne)
  simp [completionsNonStream, hb, pyChoicesNonempty, pyContains, pyGetItem, hc, pyLen,
    hd, pyExtractTexts, pyIterItems, ht]

/-- Witness for C4: the specification's own example, one choice with text
hello. -/
theorem C4_nonstream_choices_witness :
    completionsNonStream
        (Upstream.reply 200 "\x7b\"choices\": [\x7b\"text\": \"hello\"\x7d]\x7d" []) =
      ⟨200, dumps (Json.obj [("text", Json.arr [Json.str "hello"])])⟩ :=
  (C4_nonstream_choices "\x7b\"choices\": [\x7b\"text\": \"hello\"\x7d]\x7d" []
    [("choices", Json.arr [Json.obj [("text", Json.str "hello")]])]
    [Json.obj [("text", Json.str "hello")]] [Json.str "hello"]
    rfl rfl (List.cons_ne_nil _ _) rfl).1

/-- Claim C5: a non-streaming reply with a non-success status S and body B
is relayed as status S with a JSON error object whose error string contains
B verbatim. -/
theorem C5_nonstream_upstream_error (S : Nat) (B : String) (chunks : List String)
    (h : S ≠ 200) :
    completionsNonStream (Upstream.reply S B chunks) =
      ⟨S, dumps (Json.obj [("error", Json.str ("vLLM server error: " ++ B))])⟩
    ∧ ∃ pre suf, "vLLM server error: " ++ B = pre ++ B ++ suf := by
  refine ⟨by simp [completionsNonStream, h], "vLLM server error: ", "", ?_⟩
  cases B with
  | mk data => show String.mk _ = String.mk _; simp

/-- Witness for C5: a concrete 404 with body nope. -/
theorem C5_nonstream_upstream_error_witness :
    completionsNonStream (Upstream.reply 404 "nope" []) =
      ⟨404, dumps (Json.obj [("error", Json.str ("vLLM server error: " ++ "nope"))])⟩ :=
  (C5_nonstream_upstream_error 404 "nope" [] (by decide)).1

/-- Claim C6, code bug. The claim matches lines 78 to 81 of the source: the
generator is written to emit exactly one error object when the initial
upstream status is not success. That code is unreachable: the handler's
return closed the session, so the generator raises RuntimeError at
session.post before any upstream request exists, and the stream aborts with
zero chunks. The first conjunct evaluates the program at the failing input —
a streaming request whose upstream would answer 500 — giving zero chunks and
an abort; the second shows the intended behaviour the claim describes, the
sessionLive branch of the same generator body. -/
theorem C6_stream_error_dead :
    completions "m" [("stream", Json.bool true)] (Upstream.reply 500 "boom" []) =
      RelayResult.streaming 200 [] false
    ∧ stream_vllm_results true (Upstream.reply 500 "boom" []) =
        ([mkChunk (Json.obj [("error", Json.str ("vLLM server error: " ++ "boom"))])], true) :=
  ⟨rfl, rfl⟩

/-- Claim C7, counterexample. The claim says the relay's stream ends only
when the upstream connection closes. It ends at once: with an upstream that
would deliver a valid choices line and then the terminal marker, the stream
aborts — zero chunks, generator dead on the closed session — while the
upstream still has data, so the end of the relay stream does not coincide
with the upstream closing. -/
theorem C7_counterexample :
    completions "m" [("stream", Json.bool true)]
        (Upstream.reply 200 ""
          ["data: \x7b\"choices\": [\x7b\"text\": \"b\"\x7d]\x7d", "data: [DONE]"]) =
      RelayResult.streaming 200 [] false := rfl

/-- Claim C7 (amended): no terminal marker is forwarded to the client and a
terminal-marker line produces zero RelayChunks — vacuously, because the
relay's stream ends immediately when its body first runs on the closed
session, with zero chunks and an abort, whatever the upstream holds; it does
not end at the upstream's closing. -/
theorem C7_amended_stream_dies_at_once (u : Upstream) :
    stream_vllm_results false u = ([], false) := rfl

/-- Claim C8: a non-streaming success reply whose parsed JSON object has no
choices key, or an empty choices list, is answered with status 500 and the
invalid-response-from-upstream error object. -/
theorem C8_nonstream_invalid_choices (body : String) (chunks : List String)
    (fs : List (String × Json))
    (hb : loads body = some (Json.obj fs))
    (hch : lookupField fs "choices" = none ∨ lookupField fs "choices" = some (Json.arr [])) :
    completionsNonStream (Upstream.reply 200 body chunks) =
      ⟨500, dumps (Json.obj [("error", Json.str "Invalid response from vLLM server")])⟩ := by
  cases hch with
  | inl h => simp [completionsNonStream, hb, pyChoicesNonempty, pyContains, h]
  | inr h => simp [completionsNonStream, hb, pyChoicesNonempty, pyContains, pyGetItem, h, pyLen]

/-- Witness for C8: a success body without a choices key. -/
theorem C8_nonstream_invalid_choices_witness :
    completionsNonStream (Upstream.reply 200 "\x7b\"other\": 1\x7d" []) =
      ⟨500, dumps (Json.obj [("error", Json.str "Invalid response from vLLM server")])⟩ :=
  C8_nonstream_invalid_choices "\x7b\"other\": 1\x7d" [] [("other", Json.num 1)]
    rfl (Or.inl rfl)

/-- Claim C9: the health endpoint returns success with an empty body; the
handler is a constant — it reads no configuration and touches no upstream,
so no state affects it and none is affected by it. -/
theorem C9_health_ok : health.status = 200 ∧ health.body = "" :=
  ⟨rfl, rfl⟩

/-- Claim C10: the body forwarded upstream is the client body with the model
key set to the configured identifier — overwriting any client-supplied model
value — and every other key bound exactly as in the client body. -/
theorem C10_model_injection (mn : String) (req : List (String × Json)) (k : String)
    (hk : k ≠ "model") :
    lookupField (forwardedBody mn req) "model" = some (Json.str mn)
    ∧ lookupField (forwardedBody mn req) k = lookupField req k :=
  ⟨forwardedBody_model_value mn req, forwardedBody_frame mn req k hk⟩

/-- Witness for C10: a client-supplied model value is overwritten and the
prompt is preserved. -/
theorem C10_model_injection_witness :
    lookupField (forwardedBody "served-model"
        [("model", Json.str "client"), ("prompt", Json.str "hi")]) "model" =
      some (Json.str "served-model")
    ∧ lookupField (forwardedBody "served-model"
        [("model", Json.str "client"), ("prompt", Json.str "hi")]) "prompt" =
      some (Json.str "hi") := by
  have h := C10_model_injection "served-model"
    [("model", Json.str "client"), ("prompt", Json.str "hi")] "prompt" (by decide)
  exact ⟨h.1, h.2.trans rfl⟩

end RelaySpec
